import Mathlib

/-!
Verification of the multicast UDP connection library (`multicast.go`).

The Go source is shallowly embedded: Go errors become an explicit error
tree (`Err`), fallible OS calls (bind, group join, per-packet send,
multicast-option setters, close) are abstracted as oracles collected in
an `Env` record, and each exported Go function or method becomes a Lean
function over that environment.  A Go `panic` is modelled by returning
`none` from an `Option`-valued function.  Go distinguishes a nil slice
from an empty one, so the interface-list argument of the open operation
is an `Option (List NetInterface)`.
-/

namespace Multicast

/-- A Go `error` value.  `base` is a leaf error with a message,
`joinE` is the result of `errors.Join` applied to a non-empty list of
non-nil errors, and `wrap` models `fmt.Errorf` with a `%w` verb, which
produces a non-nil error even when the wrapped error is nil. -/
inductive Err where
  | base : String → Err
  | joinE : List Err → Err
  | wrap : String → Option Err → Err

/-- Go `errors.Join(a, b)`: nil when both arguments are nil, otherwise a
fresh joined error holding the non-nil arguments in order. -/
def goJoin2 : Option Err → Option Err → Option Err
  | none, none => none
  | some a, none => some (.joinE [a])
  | none, some b => some (.joinE [b])
  | some a, some b => some (.joinE [a, b])

/-- Go `errors.Join(errs...)` on a slice that contains only non-nil
errors (the source appends only non-nil errors to its slice). -/
def goJoinList (errs : List Err) : Option Err :=
  if errs.isEmpty then none else some (.joinE errs)

mutual
/-- The leaf messages of an error tree, in order. -/
def Err.leaves : Err → List String
  | .base s => [s]
  | .joinE es => leavesList es
  | .wrap _ none => []
  | .wrap _ (some e) => Err.leaves e
/-- The leaf messages of a list of error trees, in order. -/
def leavesList : List Err → List String
  | [] => []
  | e :: es => Err.leaves e ++ leavesList es
end

/-- Leaf messages of an optional (possibly nil) error. -/
def optLeaves : Option Err → List String
  | none => []
  | some e => e.leaves

/-- The number of underlying errors a joined error refers to: the length
of the list behind `errors.Join` (its `Unwrap() []error`), `0` for nil. -/
def errJoinedCount : Option Err → Nat
  | none => 0
  | some (.joinE es) => es.length
  | some _ => 1

/-- A host network interface as the code observes it: `net.Interface`
restricted to the fields the source reads (index and the two flags it
tests). -/
structure NetInterface where
  index : Nat
  flagUp : Bool
  flagMulticast : Bool
deriving DecidableEq

/-- A `net.UDPAddr`: IP bytes plus port. -/
structure UDPAddr where
  ip : List Nat
  port : Nat
deriving DecidableEq

/-- The outcomes of the OS and `x/net` calls the code makes.  Each field
abstracts one fallible primitive; `none` means the call succeeded.  The
two per-send oracles are keyed by the loop position of the call inside
one fan-out write. -/
structure Env where
  /-- `runtime.GOOS`. -/
  goos : String
  /-- `net.Interfaces()`. -/
  osInterfaces : Except Err (List NetInterface)
  /-- `net.ListenUDP(network, addr)`: `none` = bound successfully. -/
  listenRes : String → UDPAddr → Option Err
  /-- `(*ipv4.PacketConn).JoinGroup` / `(*ipv6.PacketConn).JoinGroup`,
  keyed by family, interface and group address. -/
  joinGroup : String → NetInterface → UDPAddr → Option Err
  /-- `SetMulticastInterface` for the idx-th member of a fan-out write. -/
  setIfaceRes : Nat → Option Err
  /-- `WriteTo` for the idx-th member of a fan-out write. -/
  sendRes : Nat → Option Err
  /-- `(*ipv4.PacketConn).Close()`. -/
  closeV4 : Option Err
  /-- `(*ipv6.PacketConn).Close()`. -/
  closeV6 : Option Err
  /-- `net.UDPConn.Close()`, keyed by whether the socket is still open. -/
  closeSocket : Bool → Option Err
  /-- `SetMulticastTTL` (v4) oracle. -/
  setTTLRes : Int → Option Err
  /-- `SetMulticastHopLimit` (v6) oracle. -/
  setHopRes : Int → Option Err
  /-- `SetMulticastLoopback` oracle. -/
  setLoopRes : Bool → Option Err

/-- The `UDPConn` struct of the source: the embedded bound socket
(tracked by an open/closed flag), the `network` string, the `ifaces`
member list, and the two optional family control-plane handles. -/
structure UDPConn where
  socketOpen : Bool
  network : String
  ifaces : List NetInterface
  ipv4conn : Option Unit
  ipv6conn : Option Unit
deriving DecidableEq

/-- `JoinMulticastGroup(iface, gaddr)`.  Returns `none` on a Go panic
(the `default: panic("unreachable")` branch, or a group-join call
through a nil control-plane handle); otherwise `some (err, conn
after the call)`. -/
def JoinMulticastGroup (env : Env) (c : UDPConn) (iface : Option NetInterface)
    (gaddr : Option UDPAddr) : Option (Option Err × UDPConn) :=
  match iface with
  | none => some (some (.base "multicast: interface cannot be nil"), c)
  | some ifc =>
  match gaddr with
  | none => some (some (.base "multicast: group address cannot be nil"), c)
  | some g =>
  if c.network = "udp4" then
    match c.ipv4conn with
    | none => none
    | some _ =>
      match env.joinGroup "udp4" ifc g with
      | some e => some (some e, c)
      | none => some (none, { c with ifaces := c.ifaces ++ [ifc] })
  else if c.network = "udp6" then
    match c.ipv6conn with
    | none => none
    | some _ =>
      match env.joinGroup "udp6" ifc g with
      | some e => some (some e, c)
      | none => some (none, { c with ifaces := c.ifaces ++ [ifc] })
  else none

/-- The loop body of `joinIfaces`: walks the candidate list calling
`JoinMulticastGroup` on each, counting failures in `fails` and folding
failure errors with `errors.Join`. -/
def joinIfacesLoop (env : Env) (gaddr : Option UDPAddr) :
    List NetInterface → UDPConn → Nat → Option Err → Option (UDPConn × Nat × Option Err)
  | [], c, fails, errs => some (c, fails, errs)
  | i :: rest, c, fails, errs =>
    match JoinMulticastGroup env c (some i) gaddr with
    | none => none
    | some (some e, c1) => joinIfacesLoop env gaddr rest c1 (fails + 1) (goJoin2 errs (some e))
    | some (none, c1) => joinIfacesLoop env gaddr rest c1 fails errs

/-- `joinIfaces(ifaces, gaddr)`: returns `some (ok, err, conn after)`,
`none` on panic. -/
def joinIfaces (env : Env) (c : UDPConn) (ifaces : List NetInterface)
    (gaddr : Option UDPAddr) : Option (Bool × Option Err × UDPConn) :=
  match joinIfacesLoop env gaddr ifaces c 0 none with
  | none => none
  | some (c1, fails, errs) =>
    if fails = ifaces.length then
      some (false, some (.wrap "udp: failed to join any interface" errs), c1)
    else if errs.isSome && decide (fails < ifaces.length) then
      some (true,
        some (.wrap ("multicast: failed to join " ++ toString fails ++ "/" ++
          toString ifaces.length ++ " interfaces") errs), c1)
    else
      some (true, none, c1)

/-- `Close()`: closes and nils each control-plane handle that is
present, then closes the embedded socket, joining the errors. -/
def Close (env : Env) (c : UDPConn) : Option Err × UDPConn :=
  let p1 : Option Err × UDPConn :=
    match c.ipv4conn with
    | some _ => (goJoin2 none env.closeV4, { c with ipv4conn := none })
    | none => (none, c)
  let p2 : Option Err × UDPConn :=
    match p1.2.ipv6conn with
    | some _ => (goJoin2 p1.1 env.closeV6, { p1.2 with ipv6conn := none })
    | none => p1
  (goJoin2 p2.1 (env.closeSocket p2.2.socketOpen), { p2.2 with socketOpen := false })

/-- The accumulation loop of `multicastInterfaces`: keeps the
interfaces whose flags include both up and multicast, appending in
enumeration order. -/
def multicastInterfacesLoop : List NetInterface → List NetInterface → List NetInterface
  | mifaces, [] => mifaces
  | mifaces, ifi :: rest =>
    if ifi.flagUp && ifi.flagMulticast then multicastInterfacesLoop (mifaces ++ [ifi]) rest
    else multicastInterfacesLoop mifaces rest

/-- `multicastInterfaces()`: enumerate host interfaces and filter to the
up, multicast-capable ones. -/
def multicastInterfaces (env : Env) : Except Err (List NetInterface) :=
  match env.osInterfaces with
  | .error e => .error e
  | .ok ifaces => .ok (multicastInterfacesLoop [] ifaces)

/-- The candidate interface list used by the open operation: the
caller-supplied slice when non-nil, otherwise the enumerated one. -/
def candidateIfaces (env : Env) (ifaces : Option (List NetInterface)) :
    Except Err (List NetInterface) :=
  match ifaces with
  | some l => .ok l
  | none => multicastInterfaces env

/-- What `ListenMulticastUDPIfaces` returns, plus two observations used
by the theorems: whether `net.ListenUDP` ever produced a socket, and
whether that socket was released again before returning. -/
structure OpenResult where
  conn : Option UDPConn
  err : Option Err
  socketCreated : Bool
  socketReleased : Bool

/-- The `&UDPConn{...}` literal the open operation builds after a
successful bind: socket open, candidate list stored in `ifaces`, and
the family-matching control-plane handle created. -/
def mkConn (network : String) (l : List NetInterface) : UDPConn :=
  { socketOpen := true
    network := network
    ifaces := l
    ipv4conn := if network = "udp4" then some () else none
    ipv6conn := if network = "udp6" then some () else none }

/-- `ListenMulticastUDPIfaces(network, ifaces, addr)`.  `none` models a
panic escaping the call (never actually reachable from here). -/
def ListenMulticastUDPIfaces (env : Env) (network : String)
    (ifaces : Option (List NetInterface)) (addr : Option UDPAddr) : Option OpenResult :=
  match addr with
  | none => some ⟨none, some (.base "multicast: addr cannot be nil"), false, false⟩
  | some a =>
  if !(network = "udp4" || network = "udp6") then
    some ⟨none, some (.base ("network must be either udp4 or udp6: " ++ network)), false, false⟩
  else
  match env.listenRes network a with
  | some e => some ⟨none, some e, false, false⟩
  | none =>
  match candidateIfaces env ifaces with
  | .error e =>
    some ⟨none, some (.wrap "multicast: failed to get multicast interfaces" (some e)),
      true, false⟩
  | .ok l =>
    match joinIfaces env (mkConn network l) l (some a) with
    | none => none
    | some (ok, err, conn1) =>
      if !ok && err.isSome then
        some ⟨none, err, true, !(Close env conn1).2.socketOpen⟩
      else
        some ⟨some conn1, none, true, false⟩

/-- `SetMulticastTTL(ttl)`: delegates to the family handle; `none`
models the panic on an invalid network or nil handle. -/
def SetMulticastTTL (env : Env) (c : UDPConn) (ttl : Int) : Option (Option Err) :=
  if c.network = "udp4" then
    match c.ipv4conn with
    | none => none
    | some _ => some (env.setTTLRes ttl)
  else if c.network = "udp6" then
    match c.ipv6conn with
    | none => none
    | some _ => some (env.setHopRes ttl)
  else none

/-- `SetMulticastHopLimit(hoplim)`: alias of `SetMulticastTTL`. -/
def SetMulticastHopLimit (env : Env) (c : UDPConn) (hoplim : Int) : Option (Option Err) :=
  SetMulticastTTL env c hoplim

/-- `SetMulticastLoopback(on)`: delegates to the family handle. -/
def SetMulticastLoopback (env : Env) (c : UDPConn) (b : Bool) : Option (Option Err) :=
  if c.network = "udp4" then
    match c.ipv4conn with
    | none => none
    | some _ => some (env.setLoopRes b)
  else if c.network = "udp6" then
    match c.ipv6conn with
    | none => none
    | some _ => some (env.setLoopRes b)
  else none

/-- Whether `runtime.GOOS` is one of the platforms on which the fan-out
write annotates the interface index in the per-packet control message
instead of setting the socket-wide default multicast interface. -/
def annotatePlatform (goos : String) : Bool :=
  goos = "darwin" || goos = "ios" || goos = "linux"

/-- One observable OS interaction of the fan-out write loop, tagged with
the member position it belongs to. -/
inductive SendEvent where
  | setIface : Nat → SendEvent
  | sendPkt : Nat → SendEvent
deriving DecidableEq

/-- The errors the loop body of `WriteToMulticast` appends for the
member at position `idx`: on annotate platforms only a send failure,
otherwise a `SetMulticastInterface` failure followed by a send
failure. -/
def sendStepErrs (env : Env) (idx : Nat) : List Err :=
  if annotatePlatform env.goos then (env.sendRes idx).toList
  else (env.setIfaceRes idx).toList ++ (env.sendRes idx).toList

/-- The OS interactions of the loop body for position `idx`. -/
def sendStepEvents (env : Env) (idx : Nat) : List SendEvent :=
  if annotatePlatform env.goos then [.sendPkt idx]
  else [.setIface idx, .sendPkt idx]

/-- The `for ifi := range c.ifaces` loop of `WriteToMulticast`,
processing `n` members starting at position `idx`; returns the appended
error slice and the interaction trace. -/
def sendLoop (env : Env) : Nat → Nat → List Err × List SendEvent
  | _, 0 => ([], [])
  | idx, n + 1 =>
    let rest := sendLoop env (idx + 1) n
    (sendStepErrs env idx ++ rest.1, sendStepEvents env idx ++ rest.2)

/-- `WriteToMulticast(buf, addr)`: returns `some (err, trace)` where
`trace` lists the per-interface OS interactions in order; `none` models
the panic on an invalid network or nil handle. -/
def WriteToMulticast (env : Env) (c : UDPConn) (buf : List Nat)
    (addr : Option UDPAddr) : Option (Option Err × List SendEvent) :=
  match addr with
  | none => some (some (.base "multicast: address cannot be nil"), [])
  | some _ =>
  if buf.length = 0 then some (none, [])
  else if c.network = "udp4" then
    match c.ipv4conn with
    | none => none
    | some _ =>
      let r := sendLoop env 0 c.ifaces.length
      some (goJoinList r.1, r.2)
  else if c.network = "udp6" then
    match c.ipv6conn with
    | none => none
    | some _ =>
      let r := sendLoop env 0 c.ifaces.length
      some (goJoinList r.1, r.2)
  else none

/-- The structural invariant a connection must satisfy for its methods
not to panic: a valid family string and exactly the matching
control-plane handle present. -/
def wf (c : UDPConn) : Prop :=
  (c.network = "udp4" ∨ c.network = "udp6") ∧
  (c.ipv4conn.isSome ↔ c.network = "udp4") ∧
  (c.ipv6conn.isSome ↔ c.network = "udp6")

instance (c : UDPConn) : Decidable (wf c) := by
  unfold wf; infer_instance

/-- Number of candidates whose group join fails. -/
def joinFails (env : Env) (fam : String) (g : UDPAddr) (l : List NetInterface) : Nat :=
  (l.filter (fun i => (env.joinGroup fam i g).isSome)).length

/-- The candidates whose group join succeeds, in order. -/
def joinSuccs (env : Env) (fam : String) (g : UDPAddr) (l : List NetInterface) :
    List NetInterface :=
  l.filter (fun i => (env.joinGroup fam i g).isNone)

/-- The leaf messages of all per-candidate join failures, in order. -/
def joinErrLeaves (env : Env) (fam : String) (g : UDPAddr) (l : List NetInterface) :
    List String :=
  l.flatMap (fun i => optLeaves (env.joinGroup fam i g))

/-- The error value the `joinIfaces` loop accumulates over candidates
`l` starting from `acc`: each failing candidate folds its error in with
`errors.Join`. -/
def joinErrsFold (env : Env) (fam : String) (g : UDPAddr) :
    List NetInterface → Option Err → Option Err
  | [], acc => acc
  | i :: rest, acc =>
    match env.joinGroup fam i g with
    | some e => joinErrsFold env fam g rest (goJoin2 acc (some e))
    | none => joinErrsFold env fam g rest acc

/-- The error slice a fan-out write over `n` members accumulates. -/
def fanoutErrs (env : Env) (n : Nat) : List Err :=
  (List.range n).flatMap (sendStepErrs env)

/-- The OS-interaction trace of a fan-out write over `n` members. -/
def fanoutEvents (env : Env) (n : Nat) : List SendEvent :=
  (List.range n).flatMap (sendStepEvents env)

/-- The member positions at which a trace attempts a packet send. -/
def sendIndices (evs : List SendEvent) : List Nat :=
  evs.filterMap (fun ev => match ev with | .sendPkt i => some i | .setIface _ => none)

/-- How many of the first `n` per-member sends fail. -/
def sendFailures (env : Env) (n : Nat) : Nat :=
  ((List.range n).filter (fun i => (env.sendRes i).isSome)).length

/-- How many of the first `n` per-member interface selections fail. -/
def selFailures (env : Env) (n : Nat) : Nat :=
  ((List.range n).filter (fun i => (env.setIfaceRes i).isSome)).length

/-- Connections the library can hand to a caller before close: produced
by a successful open, or by further `JoinMulticastGroup` calls on such a
connection.  (The remaining exported operations never modify the
connection record: `SetMulticastTTL`, `SetMulticastHopLimit`,
`SetMulticastLoopback` and `WriteToMulticast` only read it.) -/
inductive Reachable (env : Env) : UDPConn → Prop where
  | ofOpen : ∀ network ifs addr r c,
      ListenMulticastUDPIfaces env network ifs addr = some r → r.conn = some c →
      Reachable env c
  | ofJoin : ∀ c iface gaddr e c1,
      Reachable env c → JoinMulticastGroup env c iface gaddr = some (e, c1) →
      Reachable env c1

/-! Concrete inputs used by the closed instantiations below. -/

/-- A first up, multicast-capable interface. -/
def ifaceA : NetInterface := ⟨1, true, true⟩

/-- A second up, multicast-capable interface. -/
def ifaceB : NetInterface := ⟨2, true, true⟩

/-- An administratively-down interface. -/
def ifaceDown : NetInterface := ⟨3, false, true⟩

/-- The mDNS group address used by the examples in the source. -/
def groupAddr : UDPAddr := ⟨[224, 0, 0, 251], 5353⟩

/-- An environment in which every OS call succeeds (Linux). -/
def okEnv : Env :=
  { goos := "linux"
    osInterfaces := .ok [ifaceA, ifaceDown, ifaceB]
    listenRes := fun _ _ => none
    joinGroup := fun _ _ _ => none
    setIfaceRes := fun _ => none
    sendRes := fun _ => none
    closeV4 := none
    closeV6 := none
    closeSocket := fun b => if b then none else some (.base "use of closed network connection")
    setTTLRes := fun _ => none
    setHopRes := fun _ => none
    setLoopRes := fun _ => none }

/-- Environment in which joining fails on `ifaceA` only. -/
def c1Env : Env :=
  { okEnv with joinGroup := fun _ i _ =>
      if i = ifaceA then some (.base "join failed on the first interface") else none }

/-- Environment in which every group join fails. -/
def failJoinEnv : Env :=
  { okEnv with joinGroup := fun _ _ _ => some (.base "join denied") }

/-- A Windows environment in which `SetMulticastInterface` fails but
every send succeeds. -/
def cex2Env : Env :=
  { okEnv with goos := "windows"
               setIfaceRes := fun _ => some (.base "set multicast interface failed") }

/-- A connection with a single member interface. -/
def cex2Conn : UDPConn := ⟨true, "udp4", [ifaceA], some (), none⟩

/-- Environment in which the send at position 0 fails. -/
def w2Env : Env :=
  { okEnv with sendRes := fun i => if i = 0 then some (.base "send failed") else none }

/-- A connection with two member interfaces. -/
def w2Conn : UDPConn := ⟨true, "udp4", [ifaceA, ifaceB], some (), none⟩

/-- The connection open produces from `okEnv` with candidate list
`[ifaceA]` (the candidate appears once from construction and once more
from its successful join). -/
def c9Conn : UDPConn := ⟨true, "udp4", [ifaceA, ifaceA], some (), none⟩

/-! Helper lemmas. -/

theorem optLeaves_goJoin2 (a b : Option Err) :
    optLeaves (goJoin2 a b) = optLeaves a ++ optLeaves b := by
  cases a <;> cases b <;> simp [goJoin2, optLeaves, Err.leaves, leavesList]

theorem errJoinedCount_goJoinList (errs : List Err) :
    errJoinedCount (goJoinList errs) = errs.length := by
  cases errs <;> simp [goJoinList, errJoinedCount]

theorem goJoinList_eq_none (errs : List Err) :
    goJoinList errs = none ↔ errs = [] := by
  cases errs <;> simp [goJoinList]

theorem close_socketOpen (env : Env) (c : UDPConn) :
    (Close env c).2.socketOpen = false := rfl

theorem joinMulticastGroup_wf_eq (env : Env) (c : UDPConn) (i : NetInterface)
    (g : UDPAddr) (hwf : wf c) :
    JoinMulticastGroup env c (some i) (some g) =
      match env.joinGroup c.network i g with
      | some e => some (some e, c)
      | none => some (none, { c with ifaces := c.ifaces ++ [i] }) := by
  obtain ⟨hnet, h4, h6⟩ := hwf
  rcases hnet with hnet | hnet
  · have h4s : c.ipv4conn.isSome := h4.mpr hnet
    rcases Option.isSome_iff_exists.mp h4s with ⟨u, hu⟩
    simp only [JoinMulticastGroup, hnet, hu, if_pos rfl]
    cases env.joinGroup "udp4" i g <;> rfl
  · have h6s : c.ipv6conn.isSome := h6.mpr hnet
    rcases Option.isSome_iff_exists.mp h6s with ⟨u, hu⟩
    have hne : c.network ≠ "udp4" := by rw [hnet]; decide
    simp only [JoinMulticastGroup, hnet, hu, if_neg (by decide : ¬("udp6" = "udp4")),
      if_pos rfl]
    cases env.joinGroup "udp6" i g <;> rfl

theorem optLeaves_joinErrsFold (env : Env) (fam : String) (g : UDPAddr)
    (l : List NetInterface) : ∀ acc : Option Err,
    optLeaves (joinErrsFold env fam g l acc) = optLeaves acc ++ joinErrLeaves env fam g l := by
  induction l with
  | nil => intro acc; simp [joinErrsFold, joinErrLeaves]
  | cons i t ih =>
    intro acc
    cases hj : env.joinGroup fam i g with
    | none =>
      have hfold : joinErrsFold env fam g (i :: t) acc = joinErrsFold env fam g t acc := by
        simp [joinErrsFold, hj]
      rw [hfold, ih acc]
      simp [joinErrLeaves, optLeaves, hj]
    | some e =>
      have hfold : joinErrsFold env fam g (i :: t) acc =
          joinErrsFold env fam g t (goJoin2 acc (some e)) := by
        simp [joinErrsFold, hj]
      rw [hfold, ih (goJoin2 acc (some e)), optLeaves_goJoin2]
      simp [joinErrLeaves, optLeaves, hj, List.append_assoc]

theorem joinIfacesLoop_spec (env : Env) (g : UDPAddr) (l : List NetInterface) :
    ∀ (c : UDPConn) (fails : Nat) (errs : Option Err), wf c →
    joinIfacesLoop env (some g) l c fails errs =
      some ({ c with ifaces := c.ifaces ++ joinSuccs env c.network g l },
            fails + joinFails env c.network g l,
            joinErrsFold env c.network g l errs) := by
  induction l with
  | nil =>
    intro c fails errs _
    simp [joinIfacesLoop, joinSuccs, joinFails, joinErrsFold]
  | cons i rest ih =>
    intro c fails errs hwf
    rw [joinIfacesLoop, joinMulticastGroup_wf_eq env c i g hwf]
    cases hj : env.joinGroup c.network i g with
    | some e =>
      have heq := ih c (fails + 1) (goJoin2 errs (some e)) hwf
      have hsucc : joinSuccs env c.network g (i :: rest) = joinSuccs env c.network g rest := by
        simp [joinSuccs, List.filter_cons, hj]
      have hfail : joinFails env c.network g (i :: rest) =
          joinFails env c.network g rest + 1 := by
        simp [joinFails, List.filter_cons, hj]
      have hfold : joinErrsFold env c.network g (i :: rest) errs =
          joinErrsFold env c.network g rest (goJoin2 errs (some e)) := by
        simp [joinErrsFold, hj]
      show joinIfacesLoop env (some g) rest c (fails + 1) (goJoin2 errs (some e)) = _
      rw [heq, hsucc, hfail, hfold]
      have harith : fails + 1 + joinFails env c.network g rest =
          fails + (joinFails env c.network g rest + 1) := by omega
      rw [harith]
    | none =>
      have hwf1 : wf ({ c with ifaces := c.ifaces ++ [i] }) := by
        obtain ⟨hnet, h4, h6⟩ := hwf
        exact ⟨hnet, h4, h6⟩
      have heq := ih ({ c with ifaces := c.ifaces ++ [i] }) fails errs hwf1
      have hsucc : joinSuccs env c.network g (i :: rest) =
          i :: joinSuccs env c.network g rest := by
        simp [joinSuccs, List.filter_cons, hj]
      have hfail : joinFails env c.network g (i :: rest) = joinFails env c.network g rest := by
        simp [joinFails, List.filter_cons, hj]
      have hfold : joinErrsFold env c.network g (i :: rest) errs =
          joinErrsFold env c.network g rest errs := by
        simp [joinErrsFold, hj]
      show joinIfacesLoop env (some g) rest ({ c with ifaces := c.ifaces ++ [i] }) fails errs = _
      rw [heq, hsucc, hfail, hfold]
      simp [List.append_assoc]

theorem mkConn_wf (network : String) (l : List NetInterface)
    (hnet : network = "udp4" ∨ network = "udp6") : wf (mkConn network l) := by
  rcases hnet with h | h <;> subst h <;>
    exact ⟨by simp [mkConn], by simp [mkConn], by simp [mkConn]⟩

theorem listen_unfold (env : Env) (network : String) (ifs : Option (List NetInterface))
    (a : UDPAddr) (l : List NetInterface)
    (hnet : network = "udp4" ∨ network = "udp6")
    (hbind : env.listenRes network a = none)
    (hcand : candidateIfaces env ifs = .ok l) :
    ListenMulticastUDPIfaces env network ifs (some a) =
      match joinIfaces env (mkConn network l) l (some a) with
      | none => none
      | some (ok, err, conn1) =>
        if !ok && err.isSome then
          some ⟨none, err, true, !(Close env conn1).2.socketOpen⟩
        else
          some ⟨some conn1, none, true, false⟩ := by
  have hcond : (!(network = "udp4" || network = "udp6")) = false := by
    rcases hnet with h | h <;> subst h <;> decide
  simp only [ListenMulticastUDPIfaces, hcond, Bool.false_eq_true, if_false, hbind, hcand]

theorem multicastInterfacesLoop_eq (l : List NetInterface) :
    ∀ acc : List NetInterface,
    multicastInterfacesLoop acc l = acc ++ l.filter (fun i => i.flagUp && i.flagMulticast) := by
  induction l with
  | nil => intro acc; simp [multicastInterfacesLoop]
  | cons i t ih =>
    intro acc
    by_cases h : (i.flagUp && i.flagMulticast) <;>
      simp [multicastInterfacesLoop, h, ih, List.filter_cons]

theorem sendLoop_eq (env : Env) : ∀ (n idx : Nat),
    sendLoop env idx n = ((List.range' idx n).flatMap (sendStepErrs env),
                          (List.range' idx n).flatMap (sendStepEvents env)) := by
  intro n
  induction n with
  | zero => intro idx; simp [sendLoop]
  | succ m ih =>
    intro idx
    rw [List.range'_succ idx m 1]
    simp [sendLoop, ih]

theorem sendIndices_flatMap (env : Env) (l : List Nat) :
    sendIndices (l.flatMap (sendStepEvents env)) = l := by
  induction l with
  | nil => rfl
  | cons i t ih =>
    by_cases h : annotatePlatform env.goos <;>
      simp_all [sendIndices, sendStepEvents, h]

theorem sendStepErrs_length (env : Env) (idx : Nat) :
    (sendStepErrs env idx).length =
      (if annotatePlatform env.goos then 0
       else (if (env.setIfaceRes idx).isSome then 1 else 0))
      + (if (env.sendRes idx).isSome then 1 else 0) := by
  by_cases h : annotatePlatform env.goos <;>
    cases h1 : env.setIfaceRes idx <;> cases h2 : env.sendRes idx <;>
      simp [sendStepErrs, h, h1, h2]

theorem length_flatMap_sendStepErrs (env : Env) (l : List Nat) :
    (l.flatMap (sendStepErrs env)).length =
      (if annotatePlatform env.goos then 0
       else (l.filter (fun i => (env.setIfaceRes i).isSome)).length)
      + (l.filter (fun i => (env.sendRes i).isSome)).length := by
  induction l with
  | nil => simp
  | cons i t ih =>
    rw [List.flatMap_cons, List.length_append, ih, sendStepErrs_length]
    by_cases h : annotatePlatform env.goos <;>
      cases h1 : env.setIfaceRes i <;> cases h2 : env.sendRes i <;>
        simp [h, h1, h2, List.filter_cons] <;> omega

theorem writeToMulticast_unfold (env : Env) (c : UDPConn) (buf : List Nat) (a : UDPAddr)
    (hwf : wf c) (hbuf : buf ≠ []) :
    WriteToMulticast env c buf (some a) =
      some (goJoinList (fanoutErrs env c.ifaces.length),
            fanoutEvents env c.ifaces.length) := by
  have hlen : ¬(buf.length = 0) := by simpa [List.length_eq_zero] using hbuf
  obtain ⟨hnet, h4, h6⟩ := hwf
  have hrw : sendLoop env 0 c.ifaces.length =
      (fanoutErrs env c.ifaces.length, fanoutEvents env c.ifaces.length) := by
    rw [sendLoop_eq env c.ifaces.length 0, fanoutErrs, fanoutEvents,
      List.range_eq_range' c.ifaces.length]
  rcases hnet with h | h
  · obtain ⟨u, hu⟩ := Option.isSome_iff_exists.mp (h4.mpr h)
    simp [WriteToMulticast, h, hu, hlen, hrw]
  · obtain ⟨u, hu⟩ := Option.isSome_iff_exists.mp (h6.mpr h)
    simp [WriteToMulticast, h, hu, hlen, hrw]

theorem goJoin2_none_left (b : Option Err) :
    goJoin2 none b = b.map (fun e => Err.joinE [e]) := by
  cases b <;> rfl

theorem wf_ifaces_update (c : UDPConn) (l : List NetInterface) (h : wf c) :
    wf { c with ifaces := l } :=
  ⟨h.1, h.2.1, h.2.2⟩

/-! Claim theorems. -/

/-- Claim C5: the close operation is idempotent.  `Close` is a total
function of the embedding (the source method has no panicking branch),
the first call nils both control-plane handles, and a repeated close is
a no-op for them: the second call returns only the socket-close error
(note the result mentions neither `closeV4` nor `closeV6`) and leaves
the connection state unchanged. -/
theorem close_idempotent (env : Env) (c : UDPConn) :
    (Close env c).2.ipv4conn = none ∧ (Close env c).2.ipv6conn = none ∧
    Close env ((Close env c).2) =
      ((env.closeSocket false).map (fun e => Err.joinE [e]), (Close env c).2) := by
  obtain ⟨so, nw, ifs, o4, o6⟩ := c
  cases o4 <;> cases o6 <;>
    simp [Close, goJoin2_none_left]

/-- Claim C6: a fan-out send with an empty payload is a no-op, not an
error: the returned error is nil and the OS-interaction trace is empty
(no interface selection, no send), for every connection and every
non-nil destination address. -/
theorem writeToMulticast_empty_payload_noop (env : Env) (c : UDPConn) (a : UDPAddr) :
    WriteToMulticast env c [] (some a) = some (none, []) := rfl

/-- Claim C7: with a nil bind address, or with a family tag other than
udp4/udp6, the open operation fails with an argument error before any
socket is created. -/
theorem listen_argument_error (env : Env) (network : String)
    (ifs : Option (List NetInterface)) (addr : Option UDPAddr)
    (h : addr = none ∨ ¬(network = "udp4" ∨ network = "udp6")) :
    ListenMulticastUDPIfaces env network ifs addr =
      some { conn := none, err := some (.base "multicast: addr cannot be nil"),
             socketCreated := false, socketReleased := false } ∨
    ListenMulticastUDPIfaces env network ifs addr =
      some { conn := none,
             err := some (.base ("network must be either udp4 or udp6: " ++ network)),
             socketCreated := false, socketReleased := false } := by
  rcases h with h | h
  · subst h
    exact Or.inl rfl
  · cases addr with
    | none => exact Or.inl rfl
    | some a =>
      right
      rw [not_or] at h
      have hcond : (!(network = "udp4" || network = "udp6")) = true := by
        simp [h.1, h.2]
      simp [ListenMulticastUDPIfaces, hcond]

/-- Witness for C7 at the spec's end-to-end scenario: family tag
"udp5" with a non-nil address. -/
theorem listen_argument_error_witness :
    ListenMulticastUDPIfaces okEnv "udp5" none (some groupAddr) =
      some { conn := none, err := some (.base "multicast: addr cannot be nil"),
             socketCreated := false, socketReleased := false } ∨
    ListenMulticastUDPIfaces okEnv "udp5" none (some groupAddr) =
      some { conn := none,
             err := some (.base ("network must be either udp4 or udp6: " ++ "udp5")),
             socketCreated := false, socketReleased := false } :=
  listen_argument_error okEnv "udp5" none (some groupAddr) (Or.inr (by decide))

/-- Claim C8: the interface enumerator returns exactly the host
interfaces with both the up flag and the multicast flag set, in OS
enumeration order (the result is the order-preserving filter of the OS
list, hence a sublist of it); in the embedding it is a pure function of
the single OS listing call. -/
theorem multicastInterfaces_spec (env : Env) (l : List NetInterface)
    (h : env.osInterfaces = .ok l) :
    multicastInterfaces env = .ok (l.filter (fun i => i.flagUp && i.flagMulticast)) ∧
    (l.filter (fun i => i.flagUp && i.flagMulticast)).Sublist l := by
  constructor
  · simp [multicastInterfaces, h, multicastInterfacesLoop_eq]
  · exact List.filter_sublist l

/-- Witness for C8: one up+multicast, one down and one up+multicast
interface; the down one is dropped, order kept. -/
theorem multicastInterfaces_spec_witness :
    multicastInterfaces okEnv =
      .ok ([ifaceA, ifaceDown, ifaceB].filter (fun i => i.flagUp && i.flagMulticast)) ∧
    ([ifaceA, ifaceDown, ifaceB].filter (fun i => i.flagUp && i.flagMulticast)).Sublist
      [ifaceA, ifaceDown, ifaceB] :=
  multicastInterfaces_spec okEnv [ifaceA, ifaceDown, ifaceB] rfl

/-- Claim C4: on a connection whose handle matches its family, joining
with a non-nil interface and non-nil group address appends the
interface to `ifaces` (length grows by exactly one) when the
control-plane group-join primitive succeeds, and returns the underlying
error with `ifaces` unchanged when it fails. -/
theorem joinMulticastGroup_contract (env : Env) (c : UDPConn) (i : NetInterface)
    (g : UDPAddr) (hwf : wf c) :
    (env.joinGroup c.network i g = none →
      JoinMulticastGroup env c (some i) (some g) =
        some (none, { c with ifaces := c.ifaces ++ [i] }) ∧
      (c.ifaces ++ [i]).length = c.ifaces.length + 1) ∧
    (∀ e, env.joinGroup c.network i g = some e →
      JoinMulticastGroup env c (some i) (some g) = some (some e, c)) := by
  constructor
  · intro h
    rw [joinMulticastGroup_wf_eq env c i g hwf, h]
    exact ⟨rfl, by simp⟩
  · intro e h
    rw [joinMulticastGroup_wf_eq env c i g hwf, h]

/-- Witness for C4: a successful and a failing join at concrete
inputs. -/
theorem joinMulticastGroup_contract_witness :
    (JoinMulticastGroup okEnv w2Conn (some ifaceDown) (some groupAddr) =
        some (none, { w2Conn with ifaces := w2Conn.ifaces ++ [ifaceDown] }) ∧
      (w2Conn.ifaces ++ [ifaceDown]).length = w2Conn.ifaces.length + 1) ∧
    JoinMulticastGroup failJoinEnv w2Conn (some ifaceDown) (some groupAddr) =
      some (some (.base "join denied"), w2Conn) :=
  ⟨(joinMulticastGroup_contract okEnv w2Conn ifaceDown groupAddr (by decide)).1 rfl,
   (joinMulticastGroup_contract failJoinEnv w2Conn ifaceDown groupAddr (by decide)).2
     (.base "join denied") rfl⟩

/-- Claim C10: opening with a non-nil but empty explicit interface
list, a valid family and an address that binds, fails: zero join
attempts mean zero failures equals the candidate count, so the
total-membership-failure branch fires, the socket is closed, and the
wrapped failed-to-join-any-interface error (wrapping a nil join error)
is returned. -/
theorem listen_empty_iface_list_fails (env : Env) (network : String) (a : UDPAddr)
    (hnet : network = "udp4" ∨ network = "udp6")
    (hbind : env.listenRes network a = none) :
    ListenMulticastUDPIfaces env network (some []) (some a) =
      some { conn := none, err := some (.wrap "udp: failed to join any interface" none),
             socketCreated := true, socketReleased := true } := by
  rw [listen_unfold env network (some []) a [] hnet hbind rfl]
  simp [joinIfaces, joinIfacesLoop, close_socketOpen]

/-- Witness for C10 at a concrete environment. -/
theorem listen_empty_iface_list_fails_witness :
    ListenMulticastUDPIfaces okEnv "udp4" (some []) (some groupAddr) =
      some { conn := none, err := some (.wrap "udp: failed to join any interface" none),
             socketCreated := true, socketReleased := true } :=
  listen_empty_iface_list_fails okEnv "udp4" groupAddr (Or.inl rfl) rfl

/-- Claim C3: when every candidate join fails (candidates being the
supplied list or the enumerated one), the open operation fails: no
connection is returned, the socket that was created is released again,
and the returned error wraps the joined per-interface failures, whose
leaf messages are exactly the failure messages of all candidates in
order. -/
theorem listen_all_join_fail (env : Env) (network : String)
    (ifs : Option (List NetInterface)) (a : UDPAddr) (l : List NetInterface)
    (hnet : network = "udp4" ∨ network = "udp6")
    (hbind : env.listenRes network a = none)
    (hcand : candidateIfaces env ifs = .ok l)
    (hall : ∀ i ∈ l, (env.joinGroup network i a).isSome) :
    ListenMulticastUDPIfaces env network ifs (some a) =
      some { conn := none,
             err := some (.wrap "udp: failed to join any interface"
               (joinErrsFold env network a l none)),
             socketCreated := true, socketReleased := true } ∧
    optLeaves (joinErrsFold env network a l none) = joinErrLeaves env network a l := by
  have hleaves := optLeaves_joinErrsFold env network a l none
  refine ⟨?_, by simpa [optLeaves] using hleaves⟩
  rw [listen_unfold env network ifs a l hnet hbind hcand]
  have hloop := joinIfacesLoop_spec env a l (mkConn network l) 0 none (mkConn_wf network l hnet)
  have hfails : joinFails env network a l = l.length := by
    unfold joinFails
    rw [List.filter_eq_self.mpr hall]
  rw [joinIfaces, hloop]
  have hnet0 : (mkConn network l).network = network := rfl
  rw [hnet0, hfails]
  simp [close_socketOpen]

/-- Witness for C3: two candidates, both joins denied. -/
theorem listen_all_join_fail_witness :
    ListenMulticastUDPIfaces failJoinEnv "udp4" (some [ifaceA, ifaceB]) (some groupAddr) =
      some { conn := none,
             err := some (.wrap "udp: failed to join any interface"
               (joinErrsFold failJoinEnv "udp4" groupAddr [ifaceA, ifaceB] none)),
             socketCreated := true, socketReleased := true } ∧
    optLeaves (joinErrsFold failJoinEnv "udp4" groupAddr [ifaceA, ifaceB] none) =
      joinErrLeaves failJoinEnv "udp4" groupAddr [ifaceA, ifaceB] :=
  listen_all_join_fail failJoinEnv "udp4" (some [ifaceA, ifaceB]) groupAddr [ifaceA, ifaceB]
    (Or.inl rfl) rfl rfl (by decide)

/-- Claim C2 (amended): a fan-out send with a non-empty payload and a
non-nil address attempts exactly `len(members)` sends, in members
order, and no individual failure aborts the loop early (the trace
attempts a send at every position `0..len-1` in order, whatever the
oracles return).  On the per-packet-annotation platforms (darwin, ios,
linux) the aggregated error references exactly the failed sends and is
nil iff all sends succeed; on the remaining platforms the failed
socket-wide interface selections are collected too, so the error
references one entry per failed selection plus one per failed send and
is nil iff all selections and sends succeed. -/
theorem writeToMulticast_fanout (env : Env) (c : UDPConn) (buf : List Nat) (a : UDPAddr)
    (hwf : wf c) (hbuf : buf ≠ []) :
    WriteToMulticast env c buf (some a) =
      some (goJoinList (fanoutErrs env c.ifaces.length), fanoutEvents env c.ifaces.length)
    ∧ sendIndices (fanoutEvents env c.ifaces.length) = List.range c.ifaces.length
    ∧ errJoinedCount (goJoinList (fanoutErrs env c.ifaces.length)) =
        (if annotatePlatform env.goos then 0 else selFailures env c.ifaces.length)
        + sendFailures env c.ifaces.length
    ∧ (goJoinList (fanoutErrs env c.ifaces.length) = none ↔
        (if annotatePlatform env.goos then 0 else selFailures env c.ifaces.length)
        + sendFailures env c.ifaces.length = 0) := by
  refine ⟨writeToMulticast_unfold env c buf a hwf hbuf, ?_, ?_, ?_⟩
  · exact sendIndices_flatMap env (List.range c.ifaces.length)
  · rw [errJoinedCount_goJoinList, fanoutErrs, length_flatMap_sendStepErrs]
    rfl
  · rw [goJoinList_eq_none, ← List.length_eq_zero, fanoutErrs,
      length_flatMap_sendStepErrs]
    rfl

/-- Counterexample to claim C2 as stated: on a platform without
per-packet annotation ("windows"), with a single member whose
interface-selection call fails but whose send succeeds, every send
succeeds (zero send failures) yet the returned error is non-nil and
references one failure. -/
theorem writeToMulticast_selection_error_cex :
    WriteToMulticast cex2Env cex2Conn [1] (some groupAddr) =
      some (some (.joinE [.base "set multicast interface failed"]),
            [.setIface 0, .sendPkt 0])
    ∧ sendFailures cex2Env 1 = 0 := by
  constructor <;> rfl

/-- Witness for the amended C2 on linux with two members, the send at
position 0 failing. -/
theorem writeToMulticast_fanout_witness :
    WriteToMulticast w2Env w2Conn [7] (some groupAddr) =
      some (goJoinList (fanoutErrs w2Env w2Conn.ifaces.length),
            fanoutEvents w2Env w2Conn.ifaces.length)
    ∧ sendIndices (fanoutEvents w2Env w2Conn.ifaces.length) =
        List.range w2Conn.ifaces.length
    ∧ errJoinedCount (goJoinList (fanoutErrs w2Env w2Conn.ifaces.length)) =
        (if annotatePlatform w2Env.goos then 0 else selFailures w2Env w2Conn.ifaces.length)
        + sendFailures w2Env w2Conn.ifaces.length
    ∧ (goJoinList (fanoutErrs w2Env w2Conn.ifaces.length) = none ↔
        (if annotatePlatform w2Env.goos then 0 else selFailures w2Env w2Conn.ifaces.length)
        + sendFailures w2Env w2Conn.ifaces.length = 0) :=
  writeToMulticast_fanout w2Env w2Conn [7] groupAddr (by decide) (by decide)

/-- Claim C1, evaluated on the code at the failing input: two supplied
interfaces of which the first fails to join (N = 2, k = 1).  The open
succeeds, but the returned connection's member list has 3 entries (the
two supplied candidates kept from construction plus the successfully
joined one appended again), not N − k = 1, and the returned error is
nil: the partial-failure warning `joinIfaces` builds is discarded by
the `return conn, nil` of `ListenMulticastUDPIfaces`. -/
theorem listen_partial_join_eval :
    ListenMulticastUDPIfaces c1Env "udp4" (some [ifaceA, ifaceB]) (some groupAddr) =
      some { conn := some { socketOpen := true, network := "udp4",
                            ifaces := [ifaceA, ifaceB, ifaceB],
                            ipv4conn := some (), ipv6conn := none },
             err := none, socketCreated := true, socketReleased := false } := rfl

theorem join_preserves_wf (env : Env) (c : UDPConn) (iface : Option NetInterface)
    (gaddr : Option UDPAddr) (e : Option Err) (c1 : UDPConn) (hwf : wf c)
    (h : JoinMulticastGroup env c iface gaddr = some (e, c1)) : wf c1 := by
  cases iface with
  | none =>
    obtain ⟨-, rfl⟩ := Prod.mk.injEq .. ▸ Option.some.inj h
    exact hwf
  | some i =>
    cases gaddr with
    | none =>
      obtain ⟨-, rfl⟩ := Prod.mk.injEq .. ▸ Option.some.inj h
      exact hwf
    | some g =>
      rw [joinMulticastGroup_wf_eq env c i g hwf] at h
      cases hj : env.joinGroup c.network i g with
      | some e1 =>
        rw [hj] at h
        obtain ⟨-, rfl⟩ := Prod.mk.injEq .. ▸ Option.some.inj h
        exact hwf
      | none =>
        rw [hj] at h
        obtain ⟨-, rfl⟩ := Prod.mk.injEq .. ▸ Option.some.inj h
        exact wf_ifaces_update c _ hwf

theorem listen_conn_wf (env : Env) (network : String) (ifs : Option (List NetInterface))
    (addr : Option UDPAddr) (r : OpenResult) (c : UDPConn)
    (hopen : ListenMulticastUDPIfaces env network ifs addr = some r)
    (hc : r.conn = some c) : wf c := by
  cases addr with
  | none =>
    simp only [ListenMulticastUDPIfaces] at hopen
    obtain rfl := Option.some.inj hopen
    simp at hc
  | some a =>
    by_cases hval : network = "udp4" ∨ network = "udp6"
    · cases hbind : env.listenRes network a with
      | some e =>
        have hcond : (!(network = "udp4" || network = "udp6")) = false := by
          rcases hval with h | h <;> subst h <;> decide
        simp only [ListenMulticastUDPIfaces, hcond, Bool.false_eq_true, if_false,
          hbind] at hopen
        obtain rfl := Option.some.inj hopen
        simp at hc
      | none =>
        cases hcand : candidateIfaces env ifs with
        | error e =>
          have hcond : (!(network = "udp4" || network = "udp6")) = false := by
            rcases hval with h | h <;> subst h <;> decide
          simp only [ListenMulticastUDPIfaces, hcond, Bool.false_eq_true, if_false,
            hbind, hcand] at hopen
          obtain rfl := Option.some.inj hopen
          simp at hc
        | ok l =>
          rw [listen_unfold env network ifs a l hval hbind hcand] at hopen
          have hloop := joinIfacesLoop_spec env a l (mkConn network l) 0 none
            (mkConn_wf network l hval)
          rw [joinIfaces, hloop] at hopen
          have hwf1 : wf ({ mkConn network l with
              ifaces := (mkConn network l).ifaces ++
                joinSuccs env (mkConn network l).network a l }) :=
            wf_ifaces_update (mkConn network l) _ (mkConn_wf network l hval)
          split at hopen
          · exact Option.noConfusion hopen
          · rename_i x ok err conn1 heq
            dsimp only at heq
            by_cases hfl : 0 + joinFails env (mkConn network l).network a l = l.length
            · rw [if_pos hfl] at heq
              simp only [Option.some.injEq, Prod.mk.injEq] at heq
              obtain ⟨hok, herr, hconn⟩ := heq
              subst hok
              subst herr
              simp at hopen
              subst hopen
              simp at hc
            · rw [if_neg hfl] at heq
              by_cases hw : ((joinErrsFold env (mkConn network l).network a l none).isSome &&
                  decide (0 + joinFails env (mkConn network l).network a l < l.length)) = true
              · rw [if_pos hw] at heq
                simp only [Option.some.injEq, Prod.mk.injEq] at heq
                obtain ⟨hok, herr, hconn⟩ := heq
                subst hok
                subst hconn
                simp at hopen
                subst hopen
                simp at hc
                subst hc
                exact hwf1
              · rw [if_neg hw] at heq
                simp only [Option.some.injEq, Prod.mk.injEq] at heq
                obtain ⟨hok, herr, hconn⟩ := heq
                subst hok
                subst hconn
                simp at hopen
                subst hopen
                simp at hc
                subst hc
                exact hwf1
    · have h := listen_argument_error env network ifs (some a) (Or.inr hval)
      rcases h with h | h <;>
        · rw [h] at hopen
          obtain rfl := Option.some.inj hopen
          simp at hc

/-- Claim C9: every connection reachable before close (produced by a
successful open, possibly followed by further join calls — the only
operations that return a connection; the setters and the fan-out write
never assign to the handle fields) has a valid family tag, exactly one
control-plane handle present, and the present one matches the family:
`ipv4conn` is non-nil iff the family is udp4, `ipv6conn` non-nil iff it
is udp6, and never both. -/
theorem handle_invariant (env : Env) (c : UDPConn) (h : Reachable env c) :
    (c.network = "udp4" ∨ c.network = "udp6") ∧
    (c.ipv4conn.isSome ↔ c.network = "udp4") ∧
    (c.ipv6conn.isSome ↔ c.network = "udp6") ∧
    ¬(c.ipv4conn.isSome ∧ c.ipv6conn.isSome) := by
  have hwf : wf c := by
    induction h with
    | ofOpen nw ifs addr r c0 hopen hc0 => exact listen_conn_wf env nw ifs addr r c0 hopen hc0
    | ofJoin c0 iface gaddr e c1 hr hstep ih =>
      exact join_preserves_wf env c0 iface gaddr e c1 ih hstep
  obtain ⟨hnet, h4, h6⟩ := hwf
  refine ⟨hnet, h4, h6, ?_⟩
  rintro ⟨hs4, hs6⟩
  have e4 := h4.mp hs4
  have e6 := h6.mp hs6
  rw [e4] at e6
  exact absurd e6 (by decide)

/-- Witness for C9: the connection produced by a successful open on
linux with one candidate interface. -/
theorem handle_invariant_witness :
    (c9Conn.network = "udp4" ∨ c9Conn.network = "udp6") ∧
    (c9Conn.ipv4conn.isSome ↔ c9Conn.network = "udp4") ∧
    (c9Conn.ipv6conn.isSome ↔ c9Conn.network = "udp6") ∧
    ¬(c9Conn.ipv4conn.isSome ∧ c9Conn.ipv6conn.isSome) :=
  handle_invariant okEnv c9Conn
    (Reachable.ofOpen "udp4" (some [ifaceA]) (some groupAddr)
      ⟨some c9Conn, none, true, false⟩ c9Conn rfl rfl)

end Multicast
